import Mathlib

/-!
Shallow embedding of the storm_grok_server repository (Rust sources under
src/): the QUIC handshake and token validation (src/session.rs), the
session-registry actor (src/server.rs), the public HTTP ingress routing
(src/main.rs) and the Google JWKS key cache (src/google_key_store.rs).

External library effects (the jsonwebtoken crate, UTF-8 lossy decoding,
the HTTP client, OS sockets, random UUID generation) are passed in as
explicit inputs or oracle records, so every definition is executable and
the control flow of the Rust source is reproduced faithfully.
-/

namespace StormGrok

/-- Model of jsonwebtoken DecodingKey: it is determined by the RSA
components given to from_rsa_components (src/session.rs line 210,
src/google_key_store.rs line 74). -/
structure DecodingKey where
  n : String
  e : String
deriving DecidableEq, Repr

/-- The hard-coded RSA modulus from src/session.rs line 207. -/
def googleN : String := "wRG8MxiNesaO9_BmIUgvWEmP6NJ6c2RM3FcNx0pzOhdsyRdLVuNw32CeFDLtxtjlan3Tqn6UflASqSp2LpZ_SWFJO7N7lcc0pTIVi10yKOSf7Cryl0X2-iUkpFy-ewYmqdK_fQCrgFipBvkiSO6lR3WtzkcQPqvatlBvV-eMo-i1_pIitB6Fx3ScefgDAvwTPNldRaCpPds10XeLbpg385_TJFVAzQozD2VwyDjUTFxiVnNzF0oAKrWw76UZBeoxc5EX61kqZBVdDlOQJU80SaH9EjlxLwfsDTy6JtsV4vvemM4rLWR_1_uxkch9Arzq-LZO0s73RoCy9nhxpIzbhQ"

/-- The hard-coded RSA exponent from src/session.rs line 209. -/
def googleE : String := "AQAB"

/-- The fixed decoding key built by validate_token
(src/session.rs lines 207-210): DecodingKey.from_rsa_components n e. -/
def googleDecodingKey : DecodingKey := ⟨googleN, googleE⟩

/-- The Claims struct deserialized from the JWT
(src/session.rs lines 195-200). -/
structure Claims where
  hd : Option String
  email : String
  email_verified : Bool
deriving DecidableEq, Repr

/-- The part of the JWT header that validate_token inspects: the kid field
(src/session.rs line 204). -/
structure JwtHeader where
  kid : Option String
deriving DecidableEq, Repr

/-- Modelled from the spec: the settings::AuthRules type consumed by
validate_token is defined in the settings module, which is not under src/;
per the spec config surface it carries auth.users (allowed verified-email
strings) and auth.host_domains (allowed hd strings). Usage in
src/session.rs lines 212-218 only calls membership on the two
collections. -/
structure AuthRules where
  users : List String
  host_domains : List String
deriving DecidableEq, Repr

/-- Oracle for the external jsonwebtoken and UTF-8 library calls made by
validate_token (src/session.rs lines 202-211): String::from_utf8_lossy,
jsonwebtoken::decode_header (only its kid field is used), and
jsonwebtoken::decode with a given key. -/
structure JwtLib where
  fromUtf8Lossy : List Nat → String
  decodeHeader : String → Except String JwtHeader
  decode : String → DecodingKey → Except String Claims

/-- Errors produced by validate_token (src/session.rs lines 202-221):
decode_header failure, missing kid, decode failure, and the final
authorization bail. -/
inductive VErr
  | headerErr (e : String)
  | noKid
  | decodeErr (e : String)
  | notAllowed
deriving DecidableEq, Repr

/-- Errors produced by do_handshake (src/session.rs lines 156-192):
read_to_end failure on the first bi-stream, or a validate_token error. -/
inductive HsErr
  | readErr
  | authErr (e : VErr)
deriving DecidableEq, Repr

/-- Observable events of the handshake path, in program order: reading the
payload, the two jsonwebtoken calls, writing and finishing the reply
stream, binding the loopback port, starting the session actor, sending
StartListeningOnPort, and sending Connect to the registry. -/
inductive HsEvent
  | readPayload (bytes : List Nat)
  | decodeHeaderCall (token : String)
  | decodeCall (token : String) (key : DecodingKey)
  | writeReply (bytes : List Nat)
  | finishStream
  | bindPort (port : Nat)
  | startSession (id : Nat)
  | startListener (id : Nat)
  | connect (id : Nat) (addr : String)
deriving DecidableEq, Repr

/-- Core of validate_token (src/session.rs lines 202-221) after the
external call results are in hand: tok is the token string obtained from
from_utf8_lossy over ALL received bytes, hdr the decode_header result,
dec the decode call as a function of the key used. Returns the result
together with the trace of library calls made. Mirrors the source:
kid is only checked for presence; the key is always built from the
hard-coded googleN and googleE; then the two authorization checks. -/
def validate_core (tok : String) (hdr : Except String JwtHeader)
    (dec : DecodingKey → Except String Claims) (auth : AuthRules) :
    Except VErr Unit × List HsEvent :=
  match hdr with
  | .error e => (.error (.headerErr e), [.decodeHeaderCall tok])
  | .ok h =>
    match h.kid with
    | none => (.error .noKid, [.decodeHeaderCall tok])
    | some _ =>
      let dec_key := googleDecodingKey
      match dec dec_key with
      | .error e => (.error (.decodeErr e), [.decodeHeaderCall tok, .decodeCall tok dec_key])
      | .ok c =>
        if c.email_verified && auth.users.contains c.email then
          (.ok (), [.decodeHeaderCall tok, .decodeCall tok dec_key])
        else
          match c.hd with
          | some host_domain =>
            if auth.host_domains.contains host_domain then
              (.ok (), [.decodeHeaderCall tok, .decodeCall tok dec_key])
            else
              (.error .notAllowed, [.decodeHeaderCall tok, .decodeCall tok dec_key])
          | none => (.error .notAllowed, [.decodeHeaderCall tok, .decodeCall tok dec_key])

/-- validate_token (src/session.rs lines 202-221): the token string is the
lossy UTF-8 decoding of the WHOLE received byte vector; then the header
is decoded, kid required present, and the claims decoded with the fixed
hard-coded key. -/
def validate_token (lib : JwtLib) (received_bytes : List Nat) (auth : AuthRules) :
    Except VErr Unit × List HsEvent :=
  let token := lib.fromUtf8Lossy received_bytes
  validate_core token (lib.decodeHeader token) (fun k => lib.decode token k) auth

/-- uuid::Uuid::as_bytes: the 16 bytes of the 128-bit id, big-endian.
natToBytesBE k u produces the low k base-256 digits of u, most
significant first. -/
def natToBytesBE : Nat → Nat → List Nat
  | 0, _ => []
  | k + 1, u => natToBytesBE k (u / 256) ++ [u % 256]

/-- The 16-byte wire encoding of an AgentId (uuid::Uuid::as_bytes). -/
def uuidBytes (id : Nat) : List Nat := natToBytesBE 16 id

/-- Decoding 16 big-endian bytes back into the 128-bit AgentId value. -/
def bytesToUuid (bs : List Nat) : Nat := bs.foldl (fun a b => a * 256 + b) 0

/-- The tcp_addr string for a bound loopback port
(src/session.rs lines 169-170: listener bound on 127.0.0.1). -/
def tcpAddr (port : Nat) : String := "127.0.0.1:" ++ toString port

/-- Outcome of new_conn.bi_streams.next() plus recv.read_to_end(1000) in
do_handshake (src/session.rs line 162-163): the stream source may end
(None), yield an error (Some(Err)) - both fail the if-let pattern - or
yield a stream whose read either errors or returns the payload bytes. -/
inductive BiStream
  | noFirstStream
  | errFirstStream
  | stream (read : Except Unit (List Nat))
deriving Repr

/-- do_handshake (src/session.rs lines 156-192). Inputs: the external jwt
library oracle, the freshly minted Uuid (Uuid::new_v4 is random, so it is
a parameter), the first-bi-stream outcome, the port found by
listen_available_port, and the auth rules. Returns the Result together
with the ordered event trace. Mirrors the source exactly: the if-let
block reads, validates and replies only when a first stream arrived; read
and validation failures propagate; afterwards - in this order - the port
is bound, the session actor is started, StartListeningOnPort is sent, and
only then Connect is sent to the registry. -/
def do_handshake (lib : JwtLib) (id : Nat) (stream : BiStream) (port : Nat)
    (auth : AuthRules) : Except HsErr Unit × List HsEvent :=
  let tailEvents : List HsEvent :=
    [.bindPort port, .startSession id, .startListener id, .connect id (tcpAddr port)]
  match stream with
  | .noFirstStream => (.ok (), tailEvents)
  | .errFirstStream => (.ok (), tailEvents)
  | .stream readRes =>
    match readRes with
    | .error _ => (.error .readErr, [])
    | .ok received_bytes =>
      match validate_token lib received_bytes auth with
      | (.error e, vevents) => (.error (.authErr e), .readPayload received_bytes :: vevents)
      | (.ok _, vevents) =>
        (.ok (),
          .readPayload received_bytes :: vevents
            ++ [.writeReply (uuidBytes id), .finishStream] ++ tailEvents)

/-- start_session (src/session.rs lines 143-154): on a do_handshake error
the QUIC connection is closed with application code 1 and the error text
as reason; on success no close is issued. -/
def start_session (lib : JwtLib) (id : Nat) (stream : BiStream) (port : Nat)
    (auth : AuthRules) : (Except HsErr Unit × List HsEvent) × Option Nat :=
  match do_handshake lib id stream port auth with
  | (.error e, tr) => ((.error e, tr), some 1)
  | (.ok u, tr) => ((.ok u, tr), none)

/-- StopHandle (src/main.rs lines 154-168): holds an optional registered
ServerHandle (modelled by a Nat token). -/
structure StopHandle where
  inner : Option Nat
deriving DecidableEq, Repr

/-- StopHandle.register (src/main.rs lines 160-162). -/
def StopHandle.register (_h : StopHandle) (handle : Nat) : StopHandle := ⟨some handle⟩

/-- StopHandle.stop (src/main.rs lines 165-167): unwraps the registered
handle and sends it stop(graceful); the signal sent is (handle, graceful).
A None result models the unwrap panic when no handle was registered. -/
def StopHandle.stopSignal (h : StopHandle) (graceful : Bool) : Option (Nat × Bool) :=
  h.inner.map (fun sh => (sh, graceful))

/-- One registry entry: the Rust value (Addr of StormGrokClientSession,
String) from src/server.rs line 20; the actor address is modelled by a
Nat token and the String is the tcp_addr endpoint. -/
abbrev SessionData := Nat × String

/-- State of the StormGrokServer actor (src/server.rs lines 18-23):
the sessions HashMap and the stop handle, plus the observable effects of
its handlers: how many errors were logged and which stop signals were
sent through the stop handle. The quinn server_endpoint field carries no
registry semantics and is omitted. -/
structure ServerState where
  sessions : Nat → Option SessionData
  stopHandle : StopHandle
  errorsLogged : Nat
  stopSignals : List (Nat × Bool)

/-- The server state with an empty sessions map. -/
def emptyServerState : ServerState := ⟨fun _ => none, ⟨some 0⟩, 0, []⟩

/-- Handler for Connect (src/server.rs lines 142-149):
self.sessions.insert(msg.id, msg.session_data) - inserts or replaces. -/
def handleConnect (s : ServerState) (id : Nat) (data : SessionData) : ServerState :=
  { s with sessions := fun x => if x = id then some data else s.sessions x }

/-- Handler for Disconnect (src/server.rs lines 121-134):
sessions.remove(msg.id); when the entry existed it is just removed; when
it did not, an error is logged and self.stop_handle.stop(true) is
called. -/
def handleDisconnect (s : ServerState) (id : Nat) : ServerState :=
  match s.sessions id with
  | some _ => { s with sessions := fun x => if x = id then none else s.sessions x }
  | none =>
    { s with
      errorsLogged := s.errorsLogged + 1
      stopSignals := s.stopSignals ++ (s.stopHandle.stopSignal true).toList }

/-- Handler for ResolveClient (src/server.rs lines 156-167): looks the id
up in sessions and returns the String component (Rust tuple field .1) of
the stored pair; the state is not mutated. -/
def handleResolve (s : ServerState) (id : Nat) : Option String :=
  match s.sessions id with
  | some client_address => some client_address.2
  | none => none

/-- The three registry operations a client of the actor can send
(src/server.rs lines 116-167). -/
inductive RegOp
  | connect (id : Nat) (data : SessionData)
  | disconnect (id : Nat)
  | resolve (id : Nat)

/-- One actor-mailbox step: Connect and Disconnect mutate the state,
ResolveClient leaves it unchanged. -/
def regStep (s : ServerState) : RegOp → ServerState
  | .connect id data => handleConnect s id data
  | .disconnect id => handleDisconnect s id
  | .resolve _ => s

/-- A finite sequence of registry operations applied in mailbox order. -/
def applyOps (s : ServerState) (ops : List RegOp) : ServerState := ops.foldl regStep s

/-- The last Connect/Disconnect operation concerning id A in the list:
some true when it was a Connect, some false when a Disconnect, none when
no op in the list touches A. Resolve ops are ignored. -/
def lastCd (A : Nat) : List RegOp → Option Bool
  | [] => none
  | op :: rest =>
    match lastCd A rest with
    | some b => some b
    | none =>
      match op with
      | .connect id _ => if id = A then some true else none
      | .disconnect id => if id = A then some false else none
      | .resolve _ => none

/-- An HTTP response as status code plus body
(actix HttpResponse::Ok is 200, HttpResponse::NotFound is 404). -/
structure HttpResp where
  status : Nat
  body : String
deriving DecidableEq, Repr

/-- Rust host.split(".").next() as used by forward (src/main.rs line 70):
the prefix of the host before the first dot, the whole host when no dot
occurs. On a &str pattern split this is always Some, even for the empty
string. -/
def splitDotFirst (host : String) : Option String :=
  some (String.mk (host.data.takeWhile (fun c => c != '.')))

/-- forward (src/main.rs lines 48-126), restricted to its routing
decision. Inputs: the Uuid::parse_str oracle, the registry state consulted
through ResolveClient, the host header (none = absent; some none = header
present but not a valid string; some (some h) = the host string), and the
response the proxying branch would produce (the polling loop against the
connected session, which involves real time and the agent, is summarised
by this input). Mirrors the nested if-let chain of the source, including
the exact bodies and status codes of every early return. -/
def forward (parseUuid : String → Option Nat) (s : ServerState)
    (hostHeader : Option (Option String)) (proxied : HttpResp) : HttpResp :=
  match hostHeader with
  | none => ⟨404, "Host not found"⟩
  | some none => ⟨404, "Host was not a valid string"⟩
  | some (some host) =>
    match splitDotFirst host with
    | none => ⟨404, "This is impossibru!!!!"⟩
    | some client_id =>
      match parseUuid client_id with
      | none => ⟨404, client_id ++ " could not be parsed to client_id"⟩
      | some id =>
        match handleResolve s id with
        | some _ => proxied
        | none => ⟨200, client_id ++ " is not currently connected"⟩

/-- A key entry of the parsed JWKS response
(src/google_key_store.rs lines 40-53). -/
structure KeyJson where
  e : String
  n : String
  kid : String
deriving DecidableEq, Repr

/-- Model of the awc response as far as refresh_token inspects it: the
Cache-Control header (none = absent, some (.error) = present but
to_str fails, some (.ok cc) = the header text) and the outcome of
response.json::<KeyData> combined with the per-key
DecodingKey::from_rsa_components step (both external; an error in either
makes the keys step fail). -/
structure RespModel where
  cacheControl : Option (Except Unit String)
  keysResult : Except String (List (String × DecodingKey))

/-- The digit capture of the first match of the regex max-age=(\d*),
at the head of the character list, following the source pattern
(src/google_key_store.rs line 64): literal max-age=, a possibly empty
greedy run of digits, then a comma. Backtracking the star cannot help
since a digit is never a comma, so greedy matching is exact. -/
def maxAgeAt (cs : List Char) : Option (List Char) :=
  match cs with
  | 'm' :: 'a' :: 'x' :: '-' :: 'a' :: 'g' :: 'e' :: '=' :: rest =>
    match rest.dropWhile Char.isDigit with
    | ',' :: _ => some (rest.takeWhile Char.isDigit)
    | _ => none
  | _ => none

/-- Leftmost match of the regex max-age=(\d*), over the whole string:
scan positions left to right (Regex::captures takes the first match). -/
def findMaxAge : List Char → Option (List Char)
  | [] => none
  | c :: rest =>
    match maxAgeAt (c :: rest) with
    | some ds => some ds
    | none => findMaxAge rest

/-- str::parse::<u64> on the captured digit string: fails on an empty
capture and on values outside u64 range; otherwise the decimal value. -/
def parseU64 (ds : List Char) : Option Nat :=
  match ds with
  | [] => none
  | _ =>
    let v := ds.foldl (fun a c => a * 10 + (c.toNat - 48)) 0
    if v < 2 ^ 64 then some v else none

/-- refresh_token (src/google_key_store.rs lines 55-78). The input is the
result of awaiting the client request (Err = network/send error).
In source order: bail on send error; require the Cache-Control header;
to_str it; find max-age via the regex; parse it as u64; then parse the
JSON body into keys (with DecodingKey construction collected
all-or-nothing). Returns the new key map and the max-age seconds. -/
def refresh_token (res : Except String RespModel) :
    Except String (List (String × DecodingKey) × Nat) :=
  match res with
  | .error e => .error ("send error: " ++ e)
  | .ok response =>
    match response.cacheControl with
    | none => .error "Could not find cache control header"
    | some (.error _) => .error "cache control header was not visible ASCII"
    | some (.ok cc) =>
      match findMaxAge cc.data with
      | none => .error "Could not find max age in cache control header"
      | some ds =>
        match parseU64 ds with
        | none => .error "invalid digit string for max age"
        | some max_age =>
          match response.keysResult with
          | .error e => .error e
          | .ok keys => .ok (keys, max_age)

/-- State of the GoogleKeyStore actor (src/google_key_store.rs lines
19-22): the kid-to-key map (the awc client carries no cache state). -/
structure KeyStoreState where
  keys : List (String × DecodingKey)
deriving DecidableEq, Repr

/-- Handler for RefreshCache (src/google_key_store.rs lines 83-109): on a
refresh_token success the key map is replaced and a RefreshCache is
scheduled again after max_age seconds (ctx.notify_later); on an error the
handler only logs it - the state is untouched and nothing is scheduled.
Returns the new state and the scheduled delay, if any. -/
def handleRefreshCache (st : KeyStoreState) (res : Except String RespModel) :
    KeyStoreState × Option Nat :=
  match refresh_token res with
  | .ok (keys, max_age) => (⟨keys⟩, some max_age)
  | .error _ => (st, none)

/-- Handler for ResolveKey (src/google_key_store.rs lines 116-122). -/
def resolveKey (st : KeyStoreState) (kid : String) : Option DecodingKey :=
  (st.keys.find? (fun kv => kv.1 == kid)).map (fun kv => kv.2)

/-- get_key_for_kid (src/google_key_store.rs lines 124-143): resolve the
kid against the current store; on a miss request one refresh (whose
post-refresh state is the second argument) and retry once, failing if the
kid is still unknown. -/
def get_key_for_kid (st refreshed : KeyStoreState) (kid : String) :
    Except String DecodingKey :=
  match resolveKey st kid with
  | some dec_key => .ok dec_key
  | none =>
    match resolveKey refreshed kid with
    | some dec_key => .ok dec_key
    | none => .error ("Google did not supply a DecodingKey for kid " ++ kid)

/-- The ordering the spec asserts for the handshake steps: the reply write
strictly before the registry Connect, the Connect strictly before the
session start, and the session start strictly before the listener start,
all four events present in the trace. -/
def claimedHandshakeOrder (tr : List HsEvent) : Bool :=
  match tr.findIdx? (fun e => match e with | .writeReply _ => true | _ => false),
      tr.findIdx? (fun e => match e with | .connect _ _ => true | _ => false),
      tr.findIdx? (fun e => match e with | .startSession _ => true | _ => false),
      tr.findIdx? (fun e => match e with | .startListener _ => true | _ => false) with
  | some i, some j, some k, some l => i.blt j && j.blt k && k.blt l
  | _, _, _, _ => false

/-- A concrete jsonwebtoken oracle for closed-instance theorems: any
payload decodes to the token string tok, whose header carries kid1 and
whose claims are a verified allow-listed email. -/
def demoLib : JwtLib :=
  { fromUtf8Lossy := fun _ => "tok"
    decodeHeader := fun _ => .ok ⟨some "kid1"⟩
    decode := fun _ _ => .ok ⟨none, "alice@example.com", true⟩ }

/-- A concrete auth configuration for closed-instance theorems. -/
def demoAuth : AuthRules := ⟨["alice@example.com"], ["example.com"]⟩

/-- A concrete jsonwebtoken oracle that distinguishes the lossy UTF-8
decoding of the whole payload 0x74 0x61 (the string ta) from that of the
payload without its first byte (the string a). -/
def c6lib : JwtLib :=
  { fromUtf8Lossy := fun bs => if bs = [97] then "a" else if bs = [116, 97] then "ta" else "x"
    decodeHeader := fun _ => .ok ⟨some "kid1"⟩
    decode := fun _ _ => .ok ⟨none, "alice@example.com", true⟩ }

/-- The all-zero UUID string from spec scenario S2. -/
def zeroUuid : String := "00000000-0000-0000-0000-000000000000"

/-- A concrete Uuid::parse_str oracle that parses the all-zero UUID string
to the id 0 and rejects everything else. -/
def demoParseUuid : String → Option Nat :=
  fun s => if s = zeroUuid then some 0 else none

/-! Helper lemmas. -/

theorem bytesToUuid_append (xs : List Nat) (b : Nat) :
    bytesToUuid (xs ++ [b]) = bytesToUuid xs * 256 + b := by
  simp [bytesToUuid, List.foldl_append]

theorem natToBytesBE_length (k : Nat) : ∀ u, (natToBytesBE k u).length = k := by
  induction k with
  | zero => intro u; rfl
  | succ k ih => intro u; simp [natToBytesBE, ih]

theorem bytesToUuid_natToBytesBE (k : Nat) :
    ∀ u, bytesToUuid (natToBytesBE k u) = u % 256 ^ k := by
  induction k with
  | zero => intro u; simp [natToBytesBE, bytesToUuid, Nat.mod_one]
  | succ k ih =>
    intro u
    have hp : (256 : Nat) ^ (k + 1) = 256 * 256 ^ k := by ring
    rw [natToBytesBE, bytesToUuid_append, ih, hp, Nat.mod_mul]
    omega

theorem uuidBytes_roundtrip (id : Nat) (h : id < 2 ^ 128) :
    bytesToUuid (uuidBytes id) = id := by
  have hp : (256 : Nat) ^ 16 = 2 ^ 128 := by norm_num
  rw [uuidBytes, bytesToUuid_natToBytesBE, hp, Nat.mod_eq_of_lt h]

theorem applyOps_sessions_isSome (A : Nat) (ops : List RegOp) :
    ∀ s : ServerState, ((applyOps s ops).sessions A).isSome =
      (lastCd A ops).getD ((s.sessions A).isSome) := by
  induction ops with
  | nil => intro s; rfl
  | cons op rest ih =>
    intro s
    have h1 : applyOps s (op :: rest) = applyOps (regStep s op) rest := rfl
    rw [h1, ih]
    cases hrest : lastCd A rest with
    | some b => simp [lastCd, hrest]
    | none =>
      simp only [lastCd, hrest]
      cases op with
      | connect id data =>
        by_cases hid : id = A
        · subst hid; simp [regStep, handleConnect]
        · simp [regStep, handleConnect, hid, Ne.symm hid]
      | disconnect id =>
        by_cases hid : id = A
        · subst hid
          cases hs : s.sessions id <;> simp [regStep, handleDisconnect, hs]
        · cases hs : s.sessions id <;>
            simp [regStep, handleDisconnect, hs, hid, Ne.symm hid]
      | resolve id => simp [regStep]

theorem validate_core_trace_shape (tok : String) (hdr : Except String JwtHeader)
    (dec : DecodingKey → Except String Claims) (auth : AuthRules) :
    (validate_core tok hdr dec auth).2 = [HsEvent.decodeHeaderCall tok] ∨
    (validate_core tok hdr dec auth).2 =
      [HsEvent.decodeHeaderCall tok, HsEvent.decodeCall tok googleDecodingKey] := by
  unfold validate_core
  dsimp only
  split
  · exact Or.inl rfl
  · split
    · exact Or.inl rfl
    · split
      · exact Or.inr rfl
      · split
        · exact Or.inr rfl
        · split
          · split
            · exact Or.inr rfl
            · exact Or.inr rfl
          · exact Or.inr rfl

theorem validate_token_trace_shape (lib : JwtLib) (bytes : List Nat) (auth : AuthRules) :
    (validate_token lib bytes auth).2 =
      [HsEvent.decodeHeaderCall (lib.fromUtf8Lossy bytes)] ∨
    (validate_token lib bytes auth).2 =
      [HsEvent.decodeHeaderCall (lib.fromUtf8Lossy bytes),
       HsEvent.decodeCall (lib.fromUtf8Lossy bytes) googleDecodingKey] :=
  validate_core_trace_shape (lib.fromUtf8Lossy bytes)
    (lib.decodeHeader (lib.fromUtf8Lossy bytes))
    (fun k => lib.decode (lib.fromUtf8Lossy bytes) k) auth

theorem validate_core_ok_iff (tok : String) (kid : String)
    (dec : DecodingKey → Except String Claims) (auth : AuthRules) (c : Claims)
    (hc : dec googleDecodingKey = .ok c) :
    ((validate_core tok (.ok ⟨some kid⟩) dec auth).1 = .ok () ↔
      (c.email_verified = true ∧ c.email ∈ auth.users) ∨
        ∃ d, c.hd = some d ∧ d ∈ auth.host_domains) := by
  unfold validate_core
  dsimp only
  rw [hc]
  by_cases hev : (c.email_verified && auth.users.contains c.email) = true
  · simp only [if_pos hev]
    simp at hev
    simp [hev]
  · simp only [if_neg hev]
    simp at hev
    cases hhd : c.hd with
    | none => simp [hhd]; exact hev
    | some d =>
      by_cases hdc : d ∈ auth.host_domains
      · simp [hhd, hdc]
      · simp [hhd, hdc]; exact hev

theorem validate_core_notAllowed (tok : String) (kid : String)
    (dec : DecodingKey → Except String Claims) (auth : AuthRules) (c : Claims)
    (hc : dec googleDecodingKey = .ok c)
    (hna : ¬ ((c.email_verified = true ∧ c.email ∈ auth.users) ∨
        ∃ d, c.hd = some d ∧ d ∈ auth.host_domains)) :
    validate_core tok (.ok ⟨some kid⟩) dec auth =
      (.error .notAllowed,
        [HsEvent.decodeHeaderCall tok, HsEvent.decodeCall tok googleDecodingKey]) := by
  push_neg at hna
  obtain ⟨hna1, hna2⟩ := hna
  unfold validate_core
  dsimp only
  rw [hc]
  dsimp only
  have hev : ¬ (c.email_verified && auth.users.contains c.email) = true := by
    simp
    intro h
    exact hna1 h
  rw [if_neg hev]
  cases hhd : c.hd with
  | none => rfl
  | some d =>
    have hdc : ¬ auth.host_domains.contains d = true := by
      simp
      exact hna2 d hhd
    dsimp only
    rw [if_neg hdc]

/-! Claim theorems. -/

/-- Claim C1: for a handshake token whose header decodes with a kid and
whose claims deserialize to (email, email_verified, hd) under the fixed
key, validation succeeds iff (email_verified and email in auth.users) or
(hd present and in auth.host_domains); when neither disjunct holds the
handshake fails with the authorization error and its trace contains no
Connect, so no registry entry is produced. -/
theorem auth_gate_iff (lib : JwtLib) (bytes : List Nat) (auth : AuthRules)
    (kid : String) (c : Claims)
    (hh : lib.decodeHeader (lib.fromUtf8Lossy bytes) = .ok ⟨some kid⟩)
    (hc : lib.decode (lib.fromUtf8Lossy bytes) googleDecodingKey = .ok c) :
    ((validate_token lib bytes auth).1 = .ok () ↔
      (c.email_verified = true ∧ c.email ∈ auth.users) ∨
        ∃ d, c.hd = some d ∧ d ∈ auth.host_domains) ∧
    (¬ ((c.email_verified = true ∧ c.email ∈ auth.users) ∨
        ∃ d, c.hd = some d ∧ d ∈ auth.host_domains) →
      ∀ id port,
        (do_handshake lib id (.stream (.ok bytes)) port auth).1 =
          .error (.authErr .notAllowed) ∧
        ∀ i addr, HsEvent.connect i addr ∉
          (do_handshake lib id (.stream (.ok bytes)) port auth).2) := by
  have hvt : validate_token lib bytes auth =
      validate_core (lib.fromUtf8Lossy bytes) (.ok ⟨some kid⟩)
        (fun k => lib.decode (lib.fromUtf8Lossy bytes) k) auth := by
    unfold validate_token
    dsimp only
    rw [hh]
  constructor
  · rw [hvt]
    exact validate_core_ok_iff _ kid _ auth c hc
  · intro hna id port
    have hres : validate_token lib bytes auth =
        (.error .notAllowed,
          [.decodeHeaderCall (lib.fromUtf8Lossy bytes),
           .decodeCall (lib.fromUtf8Lossy bytes) googleDecodingKey]) := by
      rw [hvt]
      exact validate_core_notAllowed _ kid _ auth c hc hna
    refine ⟨by simp [do_handshake, hres], fun i addr => by simp [do_handshake, hres]⟩

/-- Claim C1 witness: a concrete verified allow-listed token at which the
authorization iff is instantiated. -/
theorem auth_gate_iff_witness :
    demoLib.decodeHeader (demoLib.fromUtf8Lossy [97]) = .ok ⟨some "kid1"⟩ ∧
    demoLib.decode (demoLib.fromUtf8Lossy [97]) googleDecodingKey =
      .ok ⟨none, "alice@example.com", true⟩ ∧
    ((validate_token demoLib [97] demoAuth).1 = .ok () ↔
      ((Claims.mk none "alice@example.com" true).email_verified = true ∧
          (Claims.mk none "alice@example.com" true).email ∈ demoAuth.users) ∨
        ∃ d, (Claims.mk none "alice@example.com" true).hd = some d ∧
          d ∈ demoAuth.host_domains) :=
  ⟨rfl, rfl,
    (auth_gate_iff demoLib [97] demoAuth "kid1" ⟨none, "alice@example.com", true⟩ rfl rfl).1⟩

/-- Claim C2: Connect inserts or replaces the entry for its id and leaves
every other id alone, Disconnect removes the entry, Resolve returns the
stored endpoint exactly when an entry is present, and after any finite
sequence of operations starting from the empty registry, id A has an
entry iff the last Connect/Disconnect op on A was a Connect. -/
theorem registry_churn :
    (∀ (s : ServerState) (id : Nat) (data : SessionData),
        (handleConnect s id data).sessions id = some data ∧
        ∀ x, x ≠ id → (handleConnect s id data).sessions x = s.sessions x) ∧
    (∀ (s : ServerState) (id : Nat), (handleDisconnect s id).sessions id = none) ∧
    (∀ (s : ServerState) (id : Nat), handleResolve s id = (s.sessions id).map Prod.snd) ∧
    (∀ (ops : List RegOp) (A : Nat),
        ((applyOps emptyServerState ops).sessions A).isSome = true ↔
          lastCd A ops = some true) := by
  refine ⟨?_, ?_, ?_, ?_⟩
  · intro s id data
    exact ⟨by simp [handleConnect], fun x hx => by simp [handleConnect, hx]⟩
  · intro s id
    cases hs : s.sessions id <;> simp [handleDisconnect, hs]
  · intro s id
    cases hs : s.sessions id <;> simp [handleResolve, hs]
  · intro ops A
    rw [applyOps_sessions_isSome]
    cases h : lastCd A ops with
    | none => simp [emptyServerState]
    | some b => cases b <;> simp [emptyServerState]

/-- Claim C2 witness: the registry properties instantiated at a concrete
churn sequence on id 5 whose last op on 5 is a Connect. -/
theorem registry_churn_witness :
    (9 : Nat) ≠ 5 ∧
    (handleConnect emptyServerState 5 (7, "127.0.0.1:2000")).sessions 9 =
      emptyServerState.sessions 9 ∧
    (((applyOps emptyServerState
        [RegOp.connect 5 (7, "a"), RegOp.disconnect 5,
         RegOp.connect 5 (8, "b")]).sessions 5).isSome = true ↔
      lastCd 5 [RegOp.connect 5 (7, "a"), RegOp.disconnect 5,
         RegOp.connect 5 (8, "b")] = some true) :=
  ⟨by decide, (registry_churn.1 emptyServerState 5 (7, "127.0.0.1:2000")).2 9 (by decide),
    registry_churn.2.2.2
      [RegOp.connect 5 (7, "a"), RegOp.disconnect 5, RegOp.connect 5 (8, "b")] 5⟩

/-- Claim C3: Disconnect of an absent id leaves the sessions map
unchanged, logs an error and sends a graceful stop signal through the
registered stop handle; Disconnect of a present id only removes that
entry and never logs or stops. -/
theorem disconnect_tripwire :
    (∀ (s : ServerState) (id sh : Nat), s.sessions id = none →
        s.stopHandle.inner = some sh →
        (handleDisconnect s id).sessions = s.sessions ∧
        (handleDisconnect s id).errorsLogged = s.errorsLogged + 1 ∧
        (handleDisconnect s id).stopSignals = s.stopSignals ++ [(sh, true)]) ∧
    (∀ (s : ServerState) (id : Nat) (d : SessionData), s.sessions id = some d →
        (handleDisconnect s id).sessions id = none ∧
        (∀ x, x ≠ id → (handleDisconnect s id).sessions x = s.sessions x) ∧
        (handleDisconnect s id).stopSignals = s.stopSignals ∧
        (handleDisconnect s id).errorsLogged = s.errorsLogged) := by
  constructor
  · intro s id sh h1 h2
    refine ⟨by simp [handleDisconnect, h1], by simp [handleDisconnect, h1], ?_⟩
    simp [handleDisconnect, h1, StopHandle.stopSignal, h2]
  · intro s id d h1
    exact ⟨by simp [handleDisconnect, h1],
      fun x hx => by simp [handleDisconnect, h1, hx],
      by simp [handleDisconnect, h1], by simp [handleDisconnect, h1]⟩

/-- Claim C3 witness: disconnecting the absent id 3 from the empty
registry with a registered stop handle records an error and a graceful
stop signal. -/
theorem disconnect_tripwire_witness :
    emptyServerState.sessions 3 = none ∧
    emptyServerState.stopHandle.inner = some 0 ∧
    (handleDisconnect emptyServerState 3).errorsLogged =
      emptyServerState.errorsLogged + 1 ∧
    (handleDisconnect emptyServerState 3).stopSignals =
      emptyServerState.stopSignals ++ [(0, true)] :=
  ⟨rfl, rfl, (disconnect_tripwire.1 emptyServerState 3 0 rfl rfl).2.1,
    (disconnect_tripwire.1 emptyServerState 3 0 rfl rfl).2.2⟩

/-- Claim C4: in a successful handshake that replied on the first
bi-stream, the written reply bytes are 16 bytes long and decode to
exactly the AgentId that the Connect message carries to the registry. -/
theorem handshake_roundtrip (lib : JwtLib) (id : Nat) (bytes : List Nat) (port : Nat)
    (auth : AuthRules) (bs : List Nat) (cid : Nat) (a : String)
    (hid : id < 2 ^ 128)
    (hok : (do_handshake lib id (.stream (.ok bytes)) port auth).1 = .ok ())
    (hw : HsEvent.writeReply bs ∈ (do_handshake lib id (.stream (.ok bytes)) port auth).2)
    (hcn : HsEvent.connect cid a ∈ (do_handshake lib id (.stream (.ok bytes)) port auth).2) :
    bs.length = 16 ∧ bytesToUuid bs = cid := by
  rcases hv : validate_token lib bytes auth with ⟨vres, vev⟩
  cases vres with
  | error e => simp [do_handshake, hv] at hok
  | ok u =>
    have hs := validate_token_trace_shape lib bytes auth
    rw [hv] at hs
    simp only [do_handshake, hv] at hw hcn
    rcases hs with hs | hs <;> subst hs <;> simp at hw hcn <;>
      obtain ⟨hcid, -⟩ := hcn <;> subst hw <;> subst hcid <;>
      exact ⟨natToBytesBE_length 16 _, uuidBytes_roundtrip _ hid⟩

set_option maxRecDepth 8192 in
/-- Claim C4 witness: a successful concrete handshake for AgentId 3 whose
reply bytes decode back to 3, the id registered by Connect. -/
theorem handshake_roundtrip_witness :
    (3 : Nat) < 2 ^ 128 ∧
    (do_handshake demoLib 3 (.stream (.ok [97])) 1025 demoAuth).1 = .ok () ∧
    HsEvent.writeReply (uuidBytes 3) ∈
      (do_handshake demoLib 3 (.stream (.ok [97])) 1025 demoAuth).2 ∧
    HsEvent.connect 3 (tcpAddr 1025) ∈
      (do_handshake demoLib 3 (.stream (.ok [97])) 1025 demoAuth).2 ∧
    ((uuidBytes 3).length = 16 ∧ bytesToUuid (uuidBytes 3) = 3) :=
  ⟨by norm_num, rfl, by decide, by decide,
    handshake_roundtrip demoLib 3 [97] 1025 demoAuth (uuidBytes 3) 3 (tcpAddr 1025)
      (by norm_num) rfl (by decide) (by decide)⟩

/-- Claim C5 counterexample: a public request whose first host label is
the all-zero UUID, absent from the registry, is answered with status 200
and the body that names the client id, not with status 404 and the body
No active client found as the claim states. -/
theorem unknown_subdomain_counterexample :
    forward demoParseUuid emptyServerState
        (some (some (zeroUuid ++ ".localhost"))) ⟨200, "proxied"⟩ =
      ⟨200, zeroUuid ++ " is not currently connected"⟩ ∧
    HttpResp.mk 200 (zeroUuid ++ " is not currently connected") ≠
      HttpResp.mk 404 "No active client found\n" :=
  ⟨by decide, by decide⟩

/-- Claim C5 (amended): for every public request whose first dot-delimited
host label parses as an AgentId absent from the registry, the ingress
responds with status 200 and the body: label followed by the text
 is not currently connected. -/
theorem unknown_subdomain_response (parseUuid : String → Option Nat) (s : ServerState)
    (host label : String) (id : Nat) (proxied : HttpResp)
    (hl : splitDotFirst host = some label)
    (hp : parseUuid label = some id)
    (ha : s.sessions id = none) :
    forward parseUuid s (some (some host)) proxied =
      ⟨200, label ++ " is not currently connected"⟩ := by
  simp [forward, hl, hp, handleResolve, ha]

/-- Claim C5 witness: the amended response instantiated at the all-zero
UUID host with an empty registry. -/
theorem unknown_subdomain_response_witness :
    splitDotFirst (zeroUuid ++ ".localhost") = some zeroUuid ∧
    demoParseUuid zeroUuid = some 0 ∧
    emptyServerState.sessions 0 = none ∧
    forward demoParseUuid emptyServerState
        (some (some (zeroUuid ++ ".localhost"))) ⟨200, "proxied"⟩ =
      ⟨200, zeroUuid ++ " is not currently connected"⟩ :=
  ⟨by decide, by decide, rfl,
    unknown_subdomain_response demoParseUuid emptyServerState
      (zeroUuid ++ ".localhost") zeroUuid 0 ⟨200, "proxied"⟩ (by decide) (by decide) rfl⟩

/-- Claim C6 counterexample: for the payload 0x74 0x61 the JWT parser is
called on the lossy decoding of the whole payload (the string ta) and
never on the decoding of bytes 1..N (the string a); no byte is
interpreted as a mode tag, refuting the claim that only the remaining
bytes are parsed as the JWT. -/
theorem mode_tag_counterexample :
    c6lib.fromUtf8Lossy (List.drop 1 [116, 97]) = "a" ∧
    ((do_handshake c6lib 0 (.stream (.ok [116, 97])) 1025 demoAuth).2).take 2 =
      [HsEvent.readPayload [116, 97], HsEvent.decodeHeaderCall "ta"] ∧
    ∀ e ∈ (do_handshake c6lib 0 (.stream (.ok [116, 97])) 1025 demoAuth).2,
      e ≠ HsEvent.decodeHeaderCall "a" :=
  ⟨rfl, by decide, by decide⟩

/-- Claim C6 (amended): the handshake has no mode tag; the entire payload
read from the first bidirectional stream, including byte 0, is decoded
with lossy UTF-8 and passed as the JWT to the header parser. -/
theorem whole_payload_parsed (lib : JwtLib) (id : Nat) (bytes : List Nat)
    (port : Nat) (auth : AuthRules) :
    ((do_handshake lib id (.stream (.ok bytes)) port auth).2).take 2 =
      [HsEvent.readPayload bytes, HsEvent.decodeHeaderCall (lib.fromUtf8Lossy bytes)] := by
  rcases hv : validate_token lib bytes auth with ⟨vres, vev⟩
  have hs := validate_token_trace_shape lib bytes auth
  rw [hv] at hs
  simp only at hs
  cases vres with
  | error e => rcases hs with hs | hs <;> subst hs <;> simp [do_handshake, hv]
  | ok u => rcases hs with hs | hs <;> subst hs <;> simp [do_handshake, hv]

/-- Claim C7 counterexample: a successful concrete handshake whose event
trace does not satisfy the claimed order (reply write, then Connect, then
session start, then listener start): in the code the Connect comes
last. -/
theorem handshake_order_counterexample :
    (do_handshake demoLib 5 (.stream (.ok [97])) 1025 demoAuth).1 = .ok () ∧
    claimedHandshakeOrder
      (do_handshake demoLib 5 (.stream (.ok [97])) 1025 demoAuth).2 = false :=
  ⟨rfl, by decide⟩

/-- Claim C7 (amended): in every successful handshake that replied on the
first bi-stream the events occur in the order: write the 16 AgentId bytes
and finish the stream, then bind the loopback port, then start the
session actor, then start the listener, and only then send Connect to the
registry - the registry insertion follows the listener start. -/
theorem handshake_event_order (lib : JwtLib) (id : Nat) (bytes : List Nat) (port : Nat)
    (auth : AuthRules)
    (hok : (do_handshake lib id (.stream (.ok bytes)) port auth).1 = .ok ()) :
    (do_handshake lib id (.stream (.ok bytes)) port auth).2 =
      HsEvent.readPayload bytes :: (validate_token lib bytes auth).2 ++
        [HsEvent.writeReply (uuidBytes id), HsEvent.finishStream, HsEvent.bindPort port,
         HsEvent.startSession id, HsEvent.startListener id,
         HsEvent.connect id (tcpAddr port)] := by
  rcases hv : validate_token lib bytes auth with ⟨vres, vev⟩
  cases vres with
  | error e => simp [do_handshake, hv] at hok
  | ok u => simp [do_handshake, hv]

/-- Claim C7 witness: the amended event order instantiated at a concrete
successful handshake. -/
theorem handshake_event_order_witness :
    (do_handshake demoLib 5 (.stream (.ok [97])) 1025 demoAuth).1 = .ok () ∧
    (do_handshake demoLib 5 (.stream (.ok [97])) 1025 demoAuth).2 =
      HsEvent.readPayload [97] :: (validate_token demoLib [97] demoAuth).2 ++
        [HsEvent.writeReply (uuidBytes 5), HsEvent.finishStream, HsEvent.bindPort 1025,
         HsEvent.startSession 5, HsEvent.startListener 5,
         HsEvent.connect 5 (tcpAddr 1025)] :=
  ⟨rfl, handshake_event_order demoLib 5 [97] 1025 demoAuth rfl⟩

/-- Claim C8 counterexample: a failed refresh (network error, or a
response without a Cache-Control header) leaves the cache unchanged and
is not fatal, but schedules NO further refresh, refuting the claim that a
further refresh is always scheduled after a failure. -/
theorem refresh_failure_counterexample :
    handleRefreshCache ⟨[("kid1", googleDecodingKey)]⟩ (.error "connection reset") =
      (⟨[("kid1", googleDecodingKey)]⟩, none) ∧
    handleRefreshCache ⟨[("kid1", googleDecodingKey)]⟩ (.ok ⟨none, .ok []⟩) =
      (⟨[("kid1", googleDecodingKey)]⟩, none) :=
  ⟨rfl, rfl⟩

/-- Claim C8 (amended): on any refresh_token failure the handler keeps the
previous key snapshot unchanged and returns without scheduling anything;
only on success is the snapshot replaced and the next refresh scheduled
after the upstream max-age. -/
theorem refresh_schedule_semantics :
    (∀ (st : KeyStoreState) (res : Except String RespModel) (e : String),
        refresh_token res = .error e → handleRefreshCache st res = (st, none)) ∧
    (∀ (st : KeyStoreState) (res : Except String RespModel)
        (keys : List (String × DecodingKey)) (ma : Nat),
        refresh_token res = .ok (keys, ma) →
          handleRefreshCache st res = (⟨keys⟩, some ma)) := by
  constructor
  · intro st res e h
    simp [handleRefreshCache, h]
  · intro st res keys ma h
    simp [handleRefreshCache, h]

/-- Claim C8 witness: the refresh semantics instantiated at a concrete
network failure and at a concrete success carrying max-age 3600. -/
theorem refresh_schedule_semantics_witness :
    refresh_token (.error "connection reset") = .error "send error: connection reset" ∧
    handleRefreshCache ⟨[]⟩ (.error "connection reset") = (⟨[]⟩, none) ∧
    refresh_token (.ok ⟨some (.ok "public, max-age=3600, must-revalidate"),
        .ok [("kid1", ⟨"n1", "AQAB"⟩)]⟩) = .ok ([("kid1", ⟨"n1", "AQAB"⟩)], 3600) ∧
    handleRefreshCache ⟨[]⟩ (.ok ⟨some (.ok "public, max-age=3600, must-revalidate"),
        .ok [("kid1", ⟨"n1", "AQAB"⟩)]⟩) = (⟨[("kid1", ⟨"n1", "AQAB"⟩)]⟩, some 3600) :=
  ⟨rfl, refresh_schedule_semantics.1 ⟨[]⟩ (.error "connection reset")
      "send error: connection reset" rfl,
    rfl,
    refresh_schedule_semantics.2 ⟨[]⟩
      (.ok ⟨some (.ok "public, max-age=3600, must-revalidate"), .ok [("kid1", ⟨"n1", "AQAB"⟩)]⟩)
      [("kid1", ⟨"n1", "AQAB"⟩)] 3600 rfl⟩

/-- Claim C9: when the accepted connection yields no first bidirectional
stream (the stream source ends, or yields an error), do_handshake still
returns success, never calls the token parser, writes no reply, and its
trace binds a port, starts the session and the listener, and registers
the fresh AgentId with Connect - an unauthenticated connection obtains a
live registry entry. -/
theorem unauthenticated_session_registered (lib : JwtLib) (id port : Nat)
    (auth : AuthRules) :
    do_handshake lib id .noFirstStream port auth =
      (.ok (), [.bindPort port, .startSession id, .startListener id,
        .connect id (tcpAddr port)]) ∧
    do_handshake lib id .errFirstStream port auth =
      (.ok (), [.bindPort port, .startSession id, .startListener id,
        .connect id (tcpAddr port)]) ∧
    HsEvent.connect id (tcpAddr port) ∈
      (do_handshake lib id .noFirstStream port auth).2 ∧
    (∀ t, HsEvent.decodeHeaderCall t ∉ (do_handshake lib id .noFirstStream port auth).2) ∧
    (∀ t k, HsEvent.decodeCall t k ∉ (do_handshake lib id .noFirstStream port auth).2) ∧
    (∀ bs, HsEvent.writeReply bs ∉ (do_handshake lib id .noFirstStream port auth).2) :=
  ⟨rfl, rfl, by simp [do_handshake], fun t => by simp [do_handshake],
    fun t k => by simp [do_handshake], fun bs => by simp [do_handshake]⟩

/-- Claim C10: every decode call made by validate_token uses the one
hard-coded RSA key built from the constant n and e strings, for every
token and key store state; the kid value never selects a different key
(validation is invariant under changing one present kid for another and
the key store resolve-with-retry path is a separate function never used
here), and a header without kid fails before any decode. -/
theorem fixed_verifier_key :
    (∀ (lib : JwtLib) (bytes : List Nat) (auth : AuthRules) (t : String) (k : DecodingKey),
        HsEvent.decodeCall t k ∈ (validate_token lib bytes auth).2 →
          k = googleDecodingKey) ∧
    (∀ (tok : String) (dec : DecodingKey → Except String Claims) (auth : AuthRules)
        (k1 k2 : String),
        validate_core tok (.ok ⟨some k1⟩) dec auth =
          validate_core tok (.ok ⟨some k2⟩) dec auth) ∧
    (∀ (tok : String) (dec : DecodingKey → Except String Claims) (auth : AuthRules),
        (validate_core tok (.ok ⟨none⟩) dec auth).1 = .error .noKid) := by
  refine ⟨?_, ?_, ?_⟩
  · intro lib bytes auth t k hmem
    rcases validate_token_trace_shape lib bytes auth with h | h <;> rw [h] at hmem <;>
      simp at hmem
    exact hmem.2
  · intro tok dec auth k1 k2
    rfl
  · intro tok dec auth
    rfl

set_option maxRecDepth 8192 in
/-- Claim C10 witness: at a concrete token the decode call in the trace
carries exactly the hard-coded key, and validation with kid kidA equals
validation with kid kidB. -/
theorem fixed_verifier_key_witness :
    HsEvent.decodeCall "tok" googleDecodingKey ∈
      (validate_token demoLib [97] demoAuth).2 ∧
    googleDecodingKey = googleDecodingKey ∧
    validate_core "tok" (.ok ⟨some "kidA"⟩)
        (fun _ => .ok ⟨none, "alice@example.com", true⟩) demoAuth =
      validate_core "tok" (.ok ⟨some "kidB"⟩)
        (fun _ => .ok ⟨none, "alice@example.com", true⟩) demoAuth :=
  ⟨by decide,
    fixed_verifier_key.1 demoLib [97] demoAuth "tok" googleDecodingKey (by decide),
    fixed_verifier_key.2.1 "tok" (fun _ => .ok ⟨none, "alice@example.com", true⟩)
      demoAuth "kidA" "kidB"⟩

end StormGrok
